import Mathlib

/-!
Shallow embedding of the chat-assistant logic of `src/client/pages/AIAssistant.tsx`
(the self-contained component variant, lines 446-595 and the source-citation
expression of `handleSubmit`, lines 909-923; the other variant in the file has
identical logic and differs only in a few string literals).

JavaScript string primitives used by the source (`toLowerCase`, `includes`,
`split(' ')`) are modelled explicitly over `List Char`.
-/

set_option maxRecDepth 100000

namespace ChatAI

/-- `subAt pat s = true` iff `pat` is a prefix of `s` (character-wise). -/
def subAt : List Char → List Char → Bool
  | [], _ => true
  | _ :: _, [] => false
  | a :: as, b :: bs => a == b && subAt as bs

/-- `hasSub pat s = true` iff `pat` occurs as a contiguous run inside `s`. -/
def hasSub (pat : List Char) : List Char → Bool
  | [] => pat.isEmpty
  | b :: bs => subAt pat (b :: bs) || hasSub pat bs

/-- Models JavaScript `s.includes(pat)`. -/
def includes (s pat : String) : Bool :=
  hasSub pat.data s.data

/-- Models JavaScript `s.toLowerCase()` (ASCII letters, as `Char.toLower` does). -/
def jsToLower (s : String) : String :=
  ⟨s.data.map Char.toLower⟩

/-- Splitting on a single separator character, keeping empty fields,
as JavaScript `s.split(sep)` does for a one-character separator. -/
def splitCh (sep : Char) : List Char → List (List Char)
  | [] => [[]]
  | c :: cs =>
    if c == sep then [] :: splitCh sep cs
    else
      match splitCh sep cs with
      | [] => [[c]]
      | w :: ws => (c :: w) :: ws

/-- Models JavaScript `s.split(' ')`. -/
def jsSplit (s : String) : List String :=
  (splitCh ' ' s.data).map fun l => ⟨l⟩

/-- `interface BPSDataItem` of the source. -/
structure BPSDataItem where
  subject_id : String
  title : String
  description : String
  url : String
  category : String
deriving DecidableEq

/-- A `{title, url}` source citation, as in the `Message` interface. -/
structure Source where
  title : String
  url : String
deriving DecidableEq

/-- `getCategories` (source lines 470-479). -/
def getCategories : List String :=
  [ "Kependudukan dan Demografi",
    "Ekonomi dan Perdagangan",
    "Pendidikan dan Kesehatan",
    "Infrastruktur dan Pembangunan",
    "Sosial dan Budaya",
    "Pertanian dan Perikanan",
    "Industri dan Energi",
    "Transportasi dan Komunikasi" ]

/-- The `mockData` catalog defined inside `detectSpecificKeywords`
(source lines 482-504; hoisted to the top level, it is a constant). -/
def mockData : List BPSDataItem :=
  [ { subject_id := "pop_001",
      title := "Data Penduduk Kota Medan 2024",
      description := "Statistik lengkap penduduk Kota Medan berdasarkan kelompok usia, jenis kelamin, dan sebaran geografis",
      url := "https://medankota.bps.go.id/id/statistics-table/2/pop_001",
      category := "Kependudukan" },
    { subject_id := "econ_001",
      title := "PDRB Kota Medan Atas Dasar Harga Konstan",
      description := "Produk Domestik Regional Bruto Kota Medan menurut lapangan usaha atas dasar harga konstan",
      url := "https://medankota.bps.go.id/id/statistics-table/2/econ_001",
      category := "Ekonomi" },
    { subject_id := "edu_001",
      title := "Statistik Pendidikan Kota Medan",
      description := "Data lengkap tentang jumlah sekolah, siswa, dan tenaga pendidik di Kota Medan",
      url := "https://medankota.bps.go.id/id/statistics-table/2/edu_001",
      category := "Pendidikan" } ]

/-- The filter predicate of `detectSpecificKeywords` (source lines 507-512),
applied to the lower-cased question `keywords`.  JavaScript `&&` binds tighter
than `||`, so the source condition groups as written here. -/
def matchPred (keywords : String) (item : BPSDataItem) : Bool :=
  includes keywords (jsToLower item.category) ||
  (includes keywords "populasi" && includes item.subject_id "pop") ||
  (includes keywords "ekonomi" && includes item.subject_id "econ") ||
  (includes keywords "pendidikan" && includes item.subject_id "edu")

/-- `detectSpecificKeywords` (source lines 481-513). -/
def detectSpecificKeywords (question : String) : List BPSDataItem :=
  let keywords := jsToLower question
  mockData.filter (matchPred keywords)

/-- `searchBPSData` (source lines 515-518): it just calls `detectSpecificKeywords`. -/
def searchBPSData (query : String) : List BPSDataItem :=
  detectSpecificKeywords query

/-- `detectQuestionType` (source lines 520-527). -/
def detectQuestionType (question : String) : String :=
  let lower := jsToLower question
  if includes lower "halo" || includes lower "hai" || includes lower "hello" then "greeting"
  else if includes lower "terima kasih" || includes lower "thanks" then "thanks"
  else if includes lower "siapa" || includes lower "who" ||
          includes lower "kamu siapa" || includes lower "anda siapa" then "identity"
  else if includes lower "list" || includes lower "daftar" || includes lower "kategori" then "list"
  else "information"

/-- The keep-first-occurrence deduplication by `subject_id` of
`findRelevantData` (source lines 555-557: `filter` with `findIndex`). -/
def dedupById (seen : List String) : List BPSDataItem → List BPSDataItem
  | [] => []
  | x :: xs =>
    if x.subject_id ∈ seen then dedupById seen xs
    else x :: dedupById (x.subject_id :: seen) xs

/-- `findRelevantData` (source lines 529-560). -/
def findRelevantData (question : String) : List BPSDataItem :=
  let keywordResults := detectSpecificKeywords question
  if keywordResults.length > 0 then keywordResults.take 5
  else
    let results := searchBPSData question
    if results.length > 0 then results.take 5
    else
      let words := (jsSplit (jsToLower question)).filter (fun word => word.length > 2)
      let partialResults := words.foldl
        (fun acc word =>
          let wordResults := detectSpecificKeywords word
          if wordResults.length > 0 then acc ++ wordResults
          else acc ++ (searchBPSData word).take 2)
        []
      let uniqueResults := dedupById [] partialResults
      uniqueResults.take 3

/-- `generatePersonalizedResponse` (source lines 562-595).  The emoji bytes of
the source literals are reproduced exactly via unicode escapes. -/
def generatePersonalizedResponse (question : String) (questionType : String)
    (relevantData : List BPSDataItem) : String :=
  if questionType == "greeting" then
    "Halo juga! ðŸ‘‹ Senang bertemu dengan Anda! Saya siap membantu Anda menemukan data statistik resmi BPS Kota Medan."
  else if questionType == "thanks" then
    "Sama-sama! ðŸ˜Š Saya senang bisa membantu. Silakan tanyakan lagi jika ada yang lain!"
  else if questionType == "identity" then
    "Saya adalah AI Data Assistant khusus untuk BPS Kota Medan! ðŸ¤– Saya diciptakan untuk membantu Anda mengakses dan mencari data statistik resmi BPS dengan mudah."
  else if questionType == "list" then
    let categories := getCategories
    let header :=
      "Tentu! ðŸ“Š BPS Kota Medan memiliki " ++ toString categories.length ++
      " kategori utama statistik:\n\n"
    categories.enum.foldl
      (fun response p => response ++ toString (p.1 + 1) ++ ". " ++ p.2 ++ "\n") header
  else
    match relevantData with
    | [] =>
      "Maaf, saya tidak menemukan data yang relevan dengan pertanyaan Anda. ðŸ™ Coba gunakan kata kunci yang lebih spesifik seperti \"populasi\", \"ekonomi\", \"pendidikan\", atau \"infrastruktur\"."
    | primaryResult :: rest =>
      "Bagus! Saya menemukan dataset yang relevan: **" ++ primaryResult.title ++ "**\n\n" ++
      primaryResult.description ++ "\n\n" ++
      (if rest.length > 0 then "Berikut juga beberapa data terkait yang mungkin berguna:\n" else "") ++
      "Klik link di bawah untuk melihat data lengkap dari portal resmi BPS. ðŸ”—"

/-- The source-citation expression of `handleSubmit` (source lines 909-923;
identically lines 246-264 of the other variant).  `none` models the
JavaScript `undefined`. -/
def messageSources (questionType : String) (relevantData : List BPSDataItem) :
    Option (List Source) :=
  if relevantData.length > 0 then
    some (relevantData.map fun item => ⟨item.title, item.url⟩)
  else if questionType != "greeting" && questionType != "thanks" &&
          questionType != "identity" && questionType != "list" then
    some [⟨"Portal Resmi BPS Kota Medan", "https://medankota.bps.go.id/id"⟩]
  else
    none

/-! ### Lemmas about the string primitives -/

theorem subAt_nil_left (s : List Char) : subAt [] s = true := by
  cases s <;> rfl

theorem hasSub_nil_left (s : List Char) : hasSub [] s = true := by
  induction s with
  | nil => rfl
  | cons b bs ih => simp [hasSub, subAt_nil_left]

theorem hasSub_nil_right {pat : List Char} (h : hasSub pat [] = true) : pat = [] := by
  cases pat with
  | nil => rfl
  | cons a as => simp [hasSub, List.isEmpty] at h

theorem hasSub_cons_of {pat : List Char} (b : Char) {bs : List Char}
    (h : hasSub pat bs = true) : hasSub pat (b :: bs) = true := by
  simp [hasSub, h]

theorem hasSub_of_subAt {pat s : List Char} (h : subAt pat s = true) :
    hasSub pat s = true := by
  cases s with
  | nil =>
    cases pat with
    | nil => rfl
    | cons a as => simp [subAt] at h
  | cons b bs => simp [hasSub, h]

theorem subAt_trans {p w s : List Char} (h1 : subAt p w = true)
    (h2 : subAt w s = true) : subAt p s = true := by
  induction p generalizing w s with
  | nil => exact subAt_nil_left s
  | cons a as ih =>
    cases w with
    | nil => simp [subAt] at h1
    | cons b bs =>
      cases s with
      | nil => simp [subAt] at h2
      | cons c cs =>
        simp only [subAt, Bool.and_eq_true, beq_iff_eq] at h1 h2 ⊢
        exact ⟨h1.1.trans h2.1, ih h1.2 h2.2⟩

theorem hasSub_of_subAt_hasSub {p w s : List Char} (h1 : subAt w s = true)
    (h2 : hasSub p w = true) : hasSub p s = true := by
  induction w generalizing s with
  | nil =>
    have := hasSub_nil_right h2
    subst this
    exact hasSub_nil_left s
  | cons a as ih =>
    cases s with
    | nil => simp [subAt] at h1
    | cons b bs =>
      simp only [subAt, Bool.and_eq_true, beq_iff_eq] at h1
      simp only [hasSub, Bool.or_eq_true] at h2
      cases h2 with
      | inl h2 =>
        exact hasSub_of_subAt (subAt_trans h2 (by simp [subAt, h1.1, h1.2]))
      | inr h2 =>
        exact hasSub_cons_of b (ih h1.2 h2)

theorem hasSub_trans {p w s : List Char} (h1 : hasSub p w = true)
    (h2 : hasSub w s = true) : hasSub p s = true := by
  induction s with
  | nil =>
    have := hasSub_nil_right h2
    subst this
    have := hasSub_nil_right h1
    subst this
    rfl
  | cons b bs ih =>
    simp only [hasSub, Bool.or_eq_true] at h2
    cases h2 with
    | inl h2 => exact hasSub_of_subAt_hasSub h2 h1
    | inr h2 => exact hasSub_cons_of b (ih h2)

theorem subAt_map (f : Char → Char) {p s : List Char} (h : subAt p s = true) :
    subAt (p.map f) (s.map f) = true := by
  induction p generalizing s with
  | nil => exact subAt_nil_left _
  | cons a as ih =>
    cases s with
    | nil => simp [subAt] at h
    | cons b bs =>
      simp only [subAt, Bool.and_eq_true, beq_iff_eq] at h
      simp only [List.map_cons, subAt, Bool.and_eq_true, beq_iff_eq]
      exact ⟨congrArg f h.1, ih h.2⟩

theorem hasSub_map (f : Char → Char) {p s : List Char} (h : hasSub p s = true) :
    hasSub (p.map f) (s.map f) = true := by
  induction s with
  | nil =>
    have := hasSub_nil_right h
    subst this
    exact hasSub_nil_left _
  | cons b bs ih =>
    simp only [hasSub, Bool.or_eq_true] at h
    cases h with
    | inl h => exact hasSub_of_subAt (by simpa using subAt_map f h)
    | inr h => exact hasSub_cons_of (f b) (ih h)

/-! ### Lemmas about `splitCh` -/

theorem splitCh_ne_nil (sep : Char) (l : List Char) : splitCh sep l ≠ [] := by
  cases l with
  | nil => simp [splitCh]
  | cons c cs =>
    simp only [splitCh]
    split
    · simp
    · split <;> simp

theorem splitCh_head_subAt (sep : Char) :
    ∀ l w ws, splitCh sep l = w :: ws → subAt w l = true := by
  intro l
  induction l with
  | nil =>
    intro w ws h
    injection h with h1 h2
    subst h1
    exact subAt_nil_left _
  | cons c cs ih =>
    intro w ws h
    simp only [splitCh] at h
    by_cases hc : c == sep
    · rw [if_pos hc] at h
      injection h with h1 h2
      subst h1
      exact subAt_nil_left _
    · rw [if_neg hc] at h
      cases h' : splitCh sep cs with
      | nil => exact absurd h' (splitCh_ne_nil sep cs)
      | cons w0 ws0 =>
        rw [h'] at h
        injection h with h1 h2
        subst h1
        simp only [subAt, Bool.and_eq_true, beq_self_eq_true, true_and]
        exact ih w0 ws0 h'

theorem splitCh_mem_hasSub (sep : Char) :
    ∀ l w, w ∈ splitCh sep l → hasSub w l = true := by
  intro l
  induction l with
  | nil =>
    intro w hw
    simp only [splitCh, List.mem_singleton] at hw
    subst hw
    rfl
  | cons c cs ih =>
    intro w hw
    simp only [splitCh] at hw
    by_cases hc : c == sep
    · rw [if_pos hc] at hw
      rcases List.mem_cons.mp hw with h | h
      · subst h
        exact hasSub_nil_left _
      · exact hasSub_cons_of c (ih w h)
    · rw [if_neg hc] at hw
      cases h' : splitCh sep cs with
      | nil => exact absurd h' (splitCh_ne_nil sep cs)
      | cons w0 ws0 =>
        rw [h'] at hw
        rcases List.mem_cons.mp hw with h | h
        · subst h
          apply hasSub_of_subAt
          apply splitCh_head_subAt sep (c :: cs) _ ws0
          simp only [splitCh, if_neg hc, h']
        · have : w ∈ splitCh sep cs := h' ▸ List.mem_cons_of_mem w0 h
          exact hasSub_cons_of c (ih w this)

/-! ### Idempotence of ASCII lower-casing -/

theorem toLower_eq (c : Char) :
    c.toLower = if c.toNat ≥ 65 ∧ c.toNat ≤ 90 then Char.ofNat (c.toNat + 32) else c := rfl

theorem toNat_ofNat_of_valid {n : Nat} (h : n.isValidChar) : (Char.ofNat n).toNat = n := by
  unfold Char.ofNat
  rw [dif_pos h]
  rfl

theorem toLower_idem (c : Char) : c.toLower.toLower = c.toLower := by
  rw [toLower_eq c]
  by_cases h : c.toNat ≥ 65 ∧ c.toNat ≤ 90
  · rw [if_pos h, toLower_eq]
    have hv : (c.toNat + 32).isValidChar := Or.inl (by omega)
    rw [toNat_ofNat_of_valid hv, if_neg (by omega)]
  · rw [if_neg h, toLower_eq, if_neg h]

theorem jsToLower_idem (s : String) : jsToLower (jsToLower s) = jsToLower s := by
  simp only [jsToLower, List.map_map]
  congr 1
  exact List.map_congr_left fun c _ => toLower_idem c

/-! ### The per-word fallback of `findRelevantData` never finds anything new -/

theorem matchPred_mono {k1 k2 : String} (hsub : hasSub k1.data k2.data = true)
    (item : BPSDataItem) (h : matchPred k1 item = true) : matchPred k2 item = true := by
  simp only [matchPred, includes, Bool.or_eq_true, Bool.and_eq_true] at h ⊢
  rcases h with ((h | ⟨h1, h2⟩) | ⟨h1, h2⟩) | ⟨h1, h2⟩
  · exact Or.inl (Or.inl (Or.inl (hasSub_trans h hsub)))
  · exact Or.inl (Or.inl (Or.inr ⟨hasSub_trans h1 hsub, h2⟩))
  · exact Or.inl (Or.inr ⟨hasSub_trans h1 hsub, h2⟩)
  · exact Or.inr ⟨hasSub_trans h1 hsub, h2⟩

theorem detectSpecificKeywords_token_empty {q : String}
    (hq : detectSpecificKeywords q = []) {w : String}
    (hw : hasSub w.data (jsToLower q).data = true) :
    detectSpecificKeywords w = [] := by
  simp only [detectSpecificKeywords] at hq ⊢
  have hall := List.filter_eq_nil_iff.mp hq
  apply List.filter_eq_nil_iff.mpr
  intro a ha hpred
  apply hall a ha
  have hidem : (jsToLower q).data.map Char.toLower = (jsToLower q).data :=
    congrArg String.data (jsToLower_idem q)
  have hmap := hasSub_map Char.toLower hw
  rw [hidem] at hmap
  exact matchPred_mono hmap a hpred

theorem foldl_step_nil (words : List String) (acc : List BPSDataItem)
    (h : ∀ w ∈ words, detectSpecificKeywords w = []) :
    words.foldl
      (fun acc word =>
        if (detectSpecificKeywords word).length > 0 then acc ++ detectSpecificKeywords word
        else acc ++ (searchBPSData word).take 2)
      acc = acc := by
  induction words generalizing acc with
  | nil => rfl
  | cons w ws ih =>
    have hw := h w (List.mem_cons_self w ws)
    simp only [List.foldl_cons, hw, searchBPSData, List.length_nil, gt_iff_lt,
      Nat.lt_irrefl, if_false, List.take_nil, List.append_nil]
    exact ih acc fun w' hw' => h w' (List.mem_cons_of_mem w hw')

/-- `findRelevantData` is `detectSpecificKeywords` truncated to 5: the
full-text phase repeats the keyword phase, and the per-word phase cannot
succeed when the whole-input keyword phase failed. -/
theorem findRelevantData_eq_take (q : String) :
    findRelevantData q = (detectSpecificKeywords q).take 5 := by
  cases h : detectSpecificKeywords q with
  | cons x xs =>
    simp [findRelevantData, h]
  | nil =>
    have hs : searchBPSData q = [] := h
    simp only [findRelevantData]
    rw [h, hs, if_neg (by simp), if_neg (by simp)]
    rw [foldl_step_nil]
    · rfl
    · intro w hw
      have hw' := List.mem_of_mem_filter hw
      obtain ⟨t, ht, rfl⟩ := List.mem_map.mp hw'
      exact detectSpecificKeywords_token_empty h (splitCh_mem_hasSub ' ' _ t ht)

theorem mockData_pairwise :
    mockData.Pairwise (fun a b => a.subject_id ≠ b.subject_id) := by decide

theorem detectSpecificKeywords_pairwise (q : String) :
    (detectSpecificKeywords q).Pairwise (fun a b => a.subject_id ≠ b.subject_id) := by
  have hsub : List.Sublist (detectSpecificKeywords q) mockData := List.filter_sublist mockData
  exact List.Pairwise.sublist hsub mockData_pairwise

/-! ### Claim theorems -/

/-- C3: the full-text search phase (`searchBPSData`) returns exactly the same
record list as the keyword phase (`detectSpecificKeywords`) on every input:
the two phases are extensionally equal. -/
theorem searchBPSData_eq_detectSpecificKeywords (q : String) :
    searchBPSData q = detectSpecificKeywords q := rfl

/-- C2: on every input, the matcher `findRelevantData` returns at most 5
records and never two records with the same `subject_id`. -/
theorem findRelevantData_cap_nodup (q : String) :
    (findRelevantData q).length ≤ 5 ∧
    (findRelevantData q).Pairwise (fun a b => a.subject_id ≠ b.subject_id) := by
  rw [findRelevantData_eq_take]
  constructor
  · rw [List.length_take]
    exact Nat.min_le_left _ _
  · exact List.Pairwise.sublist (List.take_sublist _ _) (detectSpecificKeywords_pairwise q)

/-- C10: on every input, `findRelevantData` equals `detectSpecificKeywords`
truncated to 5 elements; the full-text phase is the keyword phase, and the
per-word fallback never contributes, so the matcher is empty exactly when the
keyword phase is. -/
theorem findRelevantData_refines_keyword_phase (q : String) :
    findRelevantData q = (detectSpecificKeywords q).take 5 ∧
    searchBPSData q = detectSpecificKeywords q ∧
    (findRelevantData q = [] ↔ detectSpecificKeywords q = []) := by
  refine ⟨findRelevantData_eq_take q, rfl, ?_⟩
  rw [findRelevantData_eq_take q]
  cases h : detectSpecificKeywords q with
  | nil => simp
  | cons x xs => simp

/-- C7: the composer is deterministic and total — every
`(question, intent, matches)` triple produces exactly one output string (the
embedding is a total pure function, so two identical calls agree by
reflexivity). -/
theorem generatePersonalizedResponse_deterministic (question questionType : String)
    (relevantData : List BPSDataItem) :
    ∃! r : String, generatePersonalizedResponse question questionType relevantData = r :=
  ⟨generatePersonalizedResponse question questionType relevantData, rfl, fun _ hy => hy.symm⟩

/-- C5: composing the `Information` intent with no matches yields the fixed
"no relevant data found, try a more specific keyword" string, and the source
list is exactly one entry with the fixed portal URL; the function is total so
no error can arise. -/
theorem information_empty_fallback (question : String) :
    generatePersonalizedResponse question "information" [] =
      "Maaf, saya tidak menemukan data yang relevan dengan pertanyaan Anda. ðŸ™ Coba gunakan kata kunci yang lebih spesifik seperti \"populasi\", \"ekonomi\", \"pendidikan\", atau \"infrastruktur\"." ∧
    messageSources "information" [] =
      some [⟨"Portal Resmi BPS Kota Medan", "https://medankota.bps.go.id/id"⟩] :=
  ⟨rfl, rfl⟩

/-- C9: on input "populasi kota medan" the matcher returns a non-empty list
whose first (and only) element is the population-category record
`pop_001`, which the fixed catalog contains. -/
theorem match_populasi_first :
    findRelevantData "populasi kota medan" =
      [⟨"pop_001", "Data Penduduk Kota Medan 2024",
        "Statistik lengkap penduduk Kota Medan berdasarkan kelompok usia, jenis kelamin, dan sebaran geografis",
        "https://medankota.bps.go.id/id/statistics-table/2/pop_001", "Kependudukan"⟩] ∧
    (⟨"pop_001", "Data Penduduk Kota Medan 2024",
      "Statistik lengkap penduduk Kota Medan berdasarkan kelompok usia, jenis kelamin, dan sebaran geografis",
      "https://medankota.bps.go.id/id/statistics-table/2/pop_001", "Kependudukan"⟩ :
        BPSDataItem) ∈ mockData := by
  refine ⟨by decide, by decide⟩

/-- C8: end-to-end on input "data pendidikan": the intent is `information`,
the matcher returns exactly the education record `edu_001`, the composed
reply contains that record's title and description, and the sources are
exactly the single `{title, url}` pair of that record. -/
theorem pipeline_data_pendidikan :
    detectQuestionType "data pendidikan" = "information" ∧
    findRelevantData "data pendidikan" =
      [⟨"edu_001", "Statistik Pendidikan Kota Medan",
        "Data lengkap tentang jumlah sekolah, siswa, dan tenaga pendidik di Kota Medan",
        "https://medankota.bps.go.id/id/statistics-table/2/edu_001", "Pendidikan"⟩] ∧
    includes
      (generatePersonalizedResponse "data pendidikan" (detectQuestionType "data pendidikan")
        (findRelevantData "data pendidikan"))
      "Statistik Pendidikan Kota Medan" = true ∧
    includes
      (generatePersonalizedResponse "data pendidikan" (detectQuestionType "data pendidikan")
        (findRelevantData "data pendidikan"))
      "Data lengkap tentang jumlah sekolah, siswa, dan tenaga pendidik di Kota Medan" = true ∧
    messageSources (detectQuestionType "data pendidikan") (findRelevantData "data pendidikan") =
      some [⟨"Statistik Pendidikan Kota Medan",
             "https://medankota.bps.go.id/id/statistics-table/2/edu_001"⟩] := by
  refine ⟨by decide, by decide, by decide, by decide, by decide⟩

/-- C6: composing the `list` intent returns one fixed string, independent of
the question and the match list: a count header followed by the 8 categories,
1-indexed and newline-separated; its non-empty line count is the category
count plus the header line. -/
theorem list_response_spec (question : String) (ms : List BPSDataItem) :
    generatePersonalizedResponse question "list" ms =
      "Tentu! ðŸ“Š BPS Kota Medan memiliki 8 kategori utama statistik:\n\n1. Kependudukan dan Demografi\n2. Ekonomi dan Perdagangan\n3. Pendidikan dan Kesehatan\n4. Infrastruktur dan Pembangunan\n5. Sosial dan Budaya\n6. Pertanian dan Perikanan\n7. Industri dan Energi\n8. Transportasi dan Komunikasi\n" ∧
    ((splitCh '\n' (generatePersonalizedResponse question "list" ms).data).filter
        (fun l => !l.isEmpty)).length = getCategories.length + 1 := by
  exact ⟨rfl, rfl⟩

/-- C4: `detectQuestionType` tests its keyword sets in the fixed priority
order greeting, thanks, identity, list, with only the first matching rule
firing, and returns `information` when no keyword matches; in particular any
text whose lowercased form contains a greeting keyword ("halo", "hai" or
"hello") classifies as greeting, whatever else (e.g. a thanks keyword) it
contains. -/
theorem detectQuestionType_priority (q : String) :
    ((includes (jsToLower q) "halo" || includes (jsToLower q) "hai" ||
        includes (jsToLower q) "hello") = true →
      detectQuestionType q = "greeting") ∧
    ((includes (jsToLower q) "halo" || includes (jsToLower q) "hai" ||
        includes (jsToLower q) "hello") = false →
      (includes (jsToLower q) "terima kasih" || includes (jsToLower q) "thanks") = true →
      detectQuestionType q = "thanks") ∧
    ((includes (jsToLower q) "halo" || includes (jsToLower q) "hai" ||
        includes (jsToLower q) "hello") = false →
      (includes (jsToLower q) "terima kasih" || includes (jsToLower q) "thanks") = false →
      (includes (jsToLower q) "siapa" || includes (jsToLower q) "who" ||
        includes (jsToLower q) "kamu siapa" || includes (jsToLower q) "anda siapa") = true →
      detectQuestionType q = "identity") ∧
    ((includes (jsToLower q) "halo" || includes (jsToLower q) "hai" ||
        includes (jsToLower q) "hello") = false →
      (includes (jsToLower q) "terima kasih" || includes (jsToLower q) "thanks") = false →
      (includes (jsToLower q) "siapa" || includes (jsToLower q) "who" ||
        includes (jsToLower q) "kamu siapa" || includes (jsToLower q) "anda siapa") = false →
      (includes (jsToLower q) "list" || includes (jsToLower q) "daftar" ||
        includes (jsToLower q) "kategori") = true →
      detectQuestionType q = "list") ∧
    ((includes (jsToLower q) "halo" || includes (jsToLower q) "hai" ||
        includes (jsToLower q) "hello") = false →
      (includes (jsToLower q) "terima kasih" || includes (jsToLower q) "thanks") = false →
      (includes (jsToLower q) "siapa" || includes (jsToLower q) "who" ||
        includes (jsToLower q) "kamu siapa" || includes (jsToLower q) "anda siapa") = false →
      (includes (jsToLower q) "list" || includes (jsToLower q) "daftar" ||
        includes (jsToLower q) "kategori") = false →
      detectQuestionType q = "information") ∧
    detectQuestionType "" = "information" := by
  refine ⟨?_, ?_, ?_, ?_, ?_, by decide⟩
  · intro h
    simp [detectQuestionType, h]
  · intro hg ht
    simp [detectQuestionType, hg, ht]
  · intro hg ht hi
    simp [detectQuestionType, hg, ht, hi]
  · intro hg ht hi hl
    simp [detectQuestionType, hg, ht, hi, hl]
  · intro hg ht hi hl
    simp [detectQuestionType, hg, ht, hi, hl]

/-- Witness for C4 at concrete inputs: "Halo, terima kasih" contains both a
greeting and a thanks keyword (and uppercase) yet classifies as greeting;
each of the three greeting keywords triggers the first rule; a text with no
keyword classifies as information. -/
theorem detectQuestionType_priority_witness :
    detectQuestionType "Halo, terima kasih" = "greeting" ∧
    detectQuestionType "hai, terima kasih" = "greeting" ∧
    detectQuestionType "oh Hello, thanks" = "greeting" ∧
    detectQuestionType "cuaca" = "information" := by
  refine ⟨?_, ?_, ?_, ?_⟩
  · exact (detectQuestionType_priority "Halo, terima kasih").1 (by decide)
  · exact (detectQuestionType_priority "hai, terima kasih").1 (by decide)
  · exact (detectQuestionType_priority "oh Hello, thanks").1 (by decide)
  · exact (detectQuestionType_priority "cuaca").2.2.2.2.1
      (by decide) (by decide) (by decide) (by decide)

/-- Counterexample to C1 as stated: on input "halo populasi" the intent is
greeting, yet the message's sources are not empty/undefined — `handleSubmit`
attaches one source per matched record whenever the match list is non-empty,
regardless of intent. -/
theorem canned_intent_sources_cex :
    detectQuestionType "halo populasi" = "greeting" ∧
    messageSources (detectQuestionType "halo populasi") (findRelevantData "halo populasi") =
      some [⟨"Data Penduduk Kota Medan 2024",
             "https://medankota.bps.go.id/id/statistics-table/2/pop_001"⟩] ∧
    messageSources (detectQuestionType "halo populasi") (findRelevantData "halo populasi") ≠
      none := by
  refine ⟨by decide, by decide, by decide⟩

/-- C1 (amended): for every canned intent (greeting, thanks, identity, list)
the composed reply ignores the match list entirely, and the sources are
undefined when the match list is empty; with a non-empty match list the
sources are the matches' `{title, url}` pairs — only the portal fallback is
suppressed for canned intents. -/
theorem canned_intent_sources (t q : String) (ms : List BPSDataItem)
    (ht : t = "greeting" ∨ t = "thanks" ∨ t = "identity" ∨ t = "list") :
    messageSources t [] = none ∧
    generatePersonalizedResponse q t ms = generatePersonalizedResponse q t [] ∧
    (ms ≠ [] → messageSources t ms = some (ms.map fun item => ⟨item.title, item.url⟩)) := by
  have hsome : ms ≠ [] → messageSources t ms = some (ms.map fun item => ⟨item.title, item.url⟩) := by
    intro hne
    have hlen : 0 < ms.length := List.length_pos.mpr hne
    simp [messageSources, hlen]
  rcases ht with rfl | rfl | rfl | rfl <;> exact ⟨rfl, rfl, hsome⟩

/-- Witness for C1 (amended) at the concrete greeting input "halo populasi",
whose match list is non-empty. -/
theorem canned_intent_sources_witness :
    messageSources "greeting" [] = none ∧
    generatePersonalizedResponse "halo populasi" "greeting" (findRelevantData "halo populasi") =
      generatePersonalizedResponse "halo populasi" "greeting" [] ∧
    messageSources "greeting" (findRelevantData "halo populasi") =
      some ((findRelevantData "halo populasi").map fun item => ⟨item.title, item.url⟩) := by
  have h := canned_intent_sources "greeting" "halo populasi" (findRelevantData "halo populasi")
    (Or.inl rfl)
  exact ⟨h.1, h.2.1, h.2.2 (by decide)⟩

end ChatAI
